import Mathlib

/-!
Verification of the EduPay authentication/session-security subsystem.

The definitions below are a shallow embedding of the middleware module
(`middleware/auth.js`) and of the authentication routes
(`routes/auth.routes.js`), together with the configuration object of the
main server file.  JavaScript `Map` objects become association lists over
`String` keys, `Date.now()` becomes an explicit `now : Nat` parameter
threaded through each operation, `null` becomes `Option`, and the two
in-memory stores (`rateLimitStore`, `loginAttempts`) become explicit state
passed in and returned.  JWT signing/verification is embedded symbolically:
a token is a record of its payload together with the secret it was signed
with and its registered claims (issuer, audience, expiry); `jwt.verify`
compares those fields, checking the signature first, then expiry, then
issuer/audience, matching the order used by the `jsonwebtoken` library.
-/

namespace EduPay

/-! ### Association-list stores (the JavaScript `Map` objects) -/

/-- Lookup in an association list keyed by strings (`Map.get` / `Map.has`). -/
def lookupA {α : Type} (k : String) : List (String × α) → Option α
  | [] => none
  | (k', v) :: rest => if k' = k then some v else lookupA k rest

/-- `Map.set`: replace the value at an existing key, else append. -/
def setA {α : Type} (k : String) (v : α) : List (String × α) → List (String × α)
  | [] => [(k, v)]
  | (k', v') :: rest => if k' = k then (k, v) :: rest else (k', v') :: setA k v rest

/-- `Map.delete`: remove every entry for the key. -/
def eraseA {α : Type} (k : String) : List (String × α) → List (String × α)
  | [] => []
  | (k', v') :: rest => if k' = k then eraseA k rest else (k', v') :: eraseA k rest

/-- `Math.ceil(a / b)` for natural numbers (the JS operands here are
nonnegative integers). -/
def ceilDivN (a b : Nat) : Nat := (a + b - 1) / b

/-! ### Configuration (the `config` object of the main server file) -/

structure SecurityConfig where
  maxLoginAttempts : Nat
  lockoutDuration : Nat
  deriving Repr, DecidableEq

structure JwtConfig where
  secret : String
  refreshSecret : String
  issuer : String
  audience : String
  accessTokenExpiryMs : Nat
  refreshTokenExpiryMs : Nat
  deriving Repr, DecidableEq

structure Config where
  security : SecurityConfig
  jwt : JwtConfig
  deriving Repr, DecidableEq

/-- The default configuration values of the server's `config` object:
`maxLoginAttempts: 5`, `lockoutDuration: 15 * 60 * 1000`. -/
def defaultConfig : Config :=
  { security := { maxLoginAttempts := 5, lockoutDuration := 15 * 60 * 1000 }
    jwt := { secret := "edupay-access"
             refreshSecret := "edupay-refresh"
             issuer := "EduPay Platform"
             audience := "EduPay Users"
             accessTokenExpiryMs := 15 * 60 * 1000
             refreshTokenExpiryMs := 7 * 24 * 60 * 60 * 1000 } }

/-! ### Rate limiter (`rateLimit` factory in `middleware/auth.js`)

All middleware closures returned by the `rateLimit` factory close over the
single module-level `rateLimitStore` map; an "instance" is just a choice of
the `maxRequests` / `windowMs` parameters applied against that shared store. -/

structure RateRecord where
  count : Nat
  resetTime : Nat
  deriving Repr, DecidableEq

abbrev RateStore := List (String × RateRecord)

inductive RateOutcome where
  | allowed
  | rejected (retryAfter : Nat)
  deriving Repr, DecidableEq

/-- One execution of the middleware body returned by
`rateLimit(maxRequests, windowMs)` for the client key `key` at time `now`,
against the shared `rateLimitStore`. -/
def rateLimit (maxRequests windowMs : Nat) (key : String) (now : Nat)
    (store : RateStore) : RateOutcome × RateStore :=
  match lookupA key store with
  | none =>
    (RateOutcome.allowed, setA key { count := 1, resetTime := now + windowMs } store)
  | some record =>
    if record.resetTime < now then
      -- window expired, reset
      (RateOutcome.allowed, setA key { count := 1, resetTime := now + windowMs } store)
    else if maxRequests ≤ record.count then
      (RateOutcome.rejected (ceilDivN (record.resetTime - now) 1000), store)
    else
      (RateOutcome.allowed,
       setA key { count := record.count + 1, resetTime := record.resetTime } store)

/-! ### Login attempt guard (`trackLoginAttempt` / `isAccountLocked`)

The `loginAttempts` map stores per-email records `{attempts, lockUntil}`
where `lockUntil` is `null` until a lock is set.  The JavaScript guard
tests `record.lockUntil && now < record.lockUntil`, so a `lockUntil` that
is `null` — or the (unreachable in practice) numeric value `0` — counts as
no lock. -/

structure AttemptRecord where
  attempts : Nat
  lockUntil : Option Nat
  deriving Repr, DecidableEq

abbrev LoginStore := List (String × AttemptRecord)

/-- Result object of `trackLoginAttempt`; fields absent from the JS object
are `none` (the human-readable `message` field is omitted). -/
structure TrackResult where
  locked : Bool
  remainingSeconds : Option Nat
  attemptsRemaining : Option Nat
  deriving Repr, DecidableEq

/-- The JS condition `record.lockUntil && now < record.lockUntil`
(`null` and `0` are falsy). -/
def lockActive : Option Nat → Nat → Bool
  | none, _ => false
  | some l, now => decide (0 < l) && decide (now < l)

def trackLoginAttempt (cfg : Config) (email : String) (success : Bool) (now : Nat)
    (store : LoginStore) : TrackResult × LoginStore :=
  let store1 := match lookupA email store with
    | none => setA email { attempts := 0, lockUntil := none } store
    | some _ => store
  let record := (lookupA email store1).getD { attempts := 0, lockUntil := none }
  if success then
    -- reset on successful login
    ({ locked := false, remainingSeconds := none, attemptsRemaining := none },
     eraseA email store1)
  else if lockActive record.lockUntil now then
    ({ locked := true,
       remainingSeconds := some (ceilDivN (record.lockUntil.getD 0 - now) 1000),
       attemptsRemaining := none }, store1)
  else
    let attempts1 := record.attempts + 1
    if cfg.security.maxLoginAttempts ≤ attempts1 then
      ({ locked := true,
         remainingSeconds := some (ceilDivN cfg.security.lockoutDuration 1000),
         attemptsRemaining := none },
       setA email { attempts := 0, lockUntil := some (now + cfg.security.lockoutDuration) }
         store1)
    else
      ({ locked := false, remainingSeconds := none,
         attemptsRemaining := some (cfg.security.maxLoginAttempts - attempts1) },
       setA email { attempts := attempts1, lockUntil := record.lockUntil } store1)

/-- Result object of `isAccountLocked` (the `message` field is omitted). -/
structure LockStatus where
  locked : Bool
  remainingSeconds : Option Nat
  deriving Repr, DecidableEq

def isAccountLocked (email : String) (now : Nat) (store : LoginStore) :
    LockStatus × LoginStore :=
  match lookupA email store with
  | none => ({ locked := false, remainingSeconds := none }, store)
  | some record =>
    match record.lockUntil with
    | none => ({ locked := false, remainingSeconds := none }, store)
    | some l =>
      if l = 0 then
        ({ locked := false, remainingSeconds := none }, store)
      else if now < l then
        ({ locked := true, remainingSeconds := some (ceilDivN (l - now) 1000) }, store)
      else
        -- lock expired: clear the record
        ({ locked := false, remainingSeconds := none }, eraseA email store)

/-- One call against the `loginAttempts` map: either a `trackLoginAttempt`
or an `isAccountLocked`. -/
inductive GuardOp where
  | track (email : String) (success : Bool) (now : Nat)
  | check (email : String) (now : Nat)
  deriving Repr, DecidableEq

/-- Run a sequence of guard calls, threading the `loginAttempts` store. -/
def runGuardOps (cfg : Config) : List GuardOp → LoginStore → LoginStore
  | [], s => s
  | GuardOp.track e suc now :: ops, s =>
    runGuardOps cfg ops (trackLoginAttempt cfg e suc now s).2
  | GuardOp.check e now :: ops, s =>
    runGuardOps cfg ops (isAccountLocked e now s).2

/-! ### Symbolic JWT model

A signed token is embedded as a record of its payload together with the
secret used to sign it and its registered claims.  `jwt.verify` checks the
signature first, then expiry (`TokenExpiredError`), then the
issuer/audience options when they are supplied — the order used by the
`jsonwebtoken` library. -/

structure AccessPayload where
  id : Nat
  email : String
  name : String
  role : String
  deriving Repr, DecidableEq

structure AccessToken where
  payload : AccessPayload
  secret : String
  issuer : String
  audience : String
  exp : Nat
  deriving Repr, DecidableEq

structure RefreshPayload where
  id : Nat
  type : String
  deriving Repr, DecidableEq

structure RefreshTok where
  payload : RefreshPayload
  secret : String
  exp : Nat
  deriving Repr, DecidableEq

inductive VerifyErr where
  | expired
  | invalid
  deriving Repr, DecidableEq

/-- `jwt.verify(token, secret, {issuer, audience})` as called by
`authenticate`. -/
def jwtVerifyAccess (cfg : Config) (tok : AccessToken) (now : Nat) :
    Except VerifyErr AccessPayload :=
  if tok.secret ≠ cfg.jwt.secret then .error .invalid
  else if tok.exp ≤ now then .error .expired
  else if tok.issuer ≠ cfg.jwt.issuer ∨ tok.audience ≠ cfg.jwt.audience then .error .invalid
  else .ok tok.payload

/-- `jwt.verify(token, secret)` with no options, as called by
`optionalAuth`: signature and expiry only. -/
def jwtVerifyNoOpts (secret : String) (tok : AccessToken) (now : Nat) :
    Except VerifyErr AccessPayload :=
  if tok.secret ≠ secret then .error .invalid
  else if tok.exp ≤ now then .error .expired
  else .ok tok.payload

def generateAccessTokenOf (cfg : Config) (p : AccessPayload) (now : Nat) : AccessToken :=
  { payload := p
    secret := cfg.jwt.secret
    issuer := cfg.jwt.issuer
    audience := cfg.jwt.audience
    exp := now + cfg.jwt.accessTokenExpiryMs }

def generateRefreshToken (cfg : Config) (userId : Nat) (now : Nat) : RefreshTok :=
  { payload := { id := userId, type := "refresh" }
    secret := cfg.jwt.refreshSecret
    exp := now + cfg.jwt.refreshTokenExpiryMs }

/-- `verifyRefreshToken`: signature + expiry only, `null` on failure. -/
def verifyRefreshToken (cfg : Config) (tok : RefreshTok) (now : Nat) :
    Option RefreshPayload :=
  if tok.secret = cfg.jwt.refreshSecret ∧ now < tok.exp then some tok.payload else none

/-! ### Access-control middlewares -/

/-- Classification of the `Authorization` request header: absent, present
but not of the form `Bearer <token>`, or a bearer token. -/
inductive AuthHeader where
  | absent
  | malformed
  | bearer (tok : AccessToken)
  deriving Repr, DecidableEq

/-- Outcome of a middleware stage: an error response, or `next()` with the
`req.user` principal attached (or not). -/
inductive MWResult where
  | reject (status : Nat) (code : String)
  | next (user : Option AccessPayload)
  deriving Repr, DecidableEq

def authenticate (cfg : Config) (h : AuthHeader) (now : Nat) : MWResult :=
  match h with
  | .absent => .reject 401 "MISSING_TOKEN"
  | .malformed => .reject 401 "MISSING_TOKEN"
  | .bearer tok =>
    match jwtVerifyAccess cfg tok now with
    | .ok p => .next (some p)
    | .error .expired => .reject 401 "TOKEN_EXPIRED"
    | .error .invalid => .reject 401 "INVALID_TOKEN"

def optionalAuth (cfg : Config) (h : AuthHeader) (now : Nat) : MWResult :=
  match h with
  | .bearer tok =>
    match jwtVerifyNoOpts cfg.jwt.secret tok now with
    | .ok p => .next (some p)
    | .error _ => .next none
  | _ => .next none

def authorize (allowedRoles : List String) (user : Option AccessPayload) : MWResult :=
  match user with
  | none => .reject 401 "AUTH_REQUIRED"
  | some u =>
    if allowedRoles.contains u.role then .next (some u)
    else .reject 403 "FORBIDDEN"

/-! ### Data-store model and the auth route handlers

The relational store is out of the core's scope; the routes consume it
through user lookup and the `refresh_tokens` table.  `bcrypt.compare` is
embedded as equality with the stored credential (the hash is treated as an
injective image of the password, which is all the control flow observes). -/

structure User where
  id : Nat
  email : String
  name : String
  role : String
  password : String
  deriving Repr, DecidableEq

structure RefreshRow where
  userId : Nat
  token : RefreshTok
  expiresAt : Nat
  deriving Repr, DecidableEq

structure Db where
  users : List User
  refreshTokens : List RefreshRow
  deriving Repr, DecidableEq

/-- A JSON response; fields the handler does not put in the object are
`none`.  `status` is the HTTP status (200 for the default `res.json`). -/
structure ApiResponse where
  status : Nat
  success : Bool
  code : Option String
  retryAfter : Option Nat
  attemptsRemaining : Option Nat
  accessToken : Option AccessToken
  refreshToken : Option RefreshTok
  deriving Repr, DecidableEq

def ApiResponse.err (status : Nat) (code : String) : ApiResponse :=
  { status := status, success := false, code := some code, retryAfter := none
    attemptsRemaining := none, accessToken := none, refreshToken := none }

/-- `datetime('now', '+7 days')` offset used when persisting a refresh
token row. -/
def sevenDaysMs : Nat := 7 * 24 * 60 * 60 * 1000

/-- Handler body of `POST /api/auth/login` (after the auth rate limiter and
body validation).  Returns the response, the updated `loginAttempts` store
and the updated data store. -/
def loginHandler (cfg : Config) (db : Db) (email password : String) (now : Nat)
    (s : LoginStore) : ApiResponse × LoginStore × Db :=
  let checked := isAccountLocked email now s
  if checked.1.locked then
    ({ ApiResponse.err 423 "ACCOUNT_LOCKED" with retryAfter := checked.1.remainingSeconds },
     checked.2, db)
  else
    match db.users.find? (fun u => u.email == email) with
    | none =>
      let tracked := trackLoginAttempt cfg email false now checked.2
      (ApiResponse.err 401 "INVALID_CREDENTIALS", tracked.2, db)
    | some user =>
      if password == user.password then
        let tracked := trackLoginAttempt cfg email true now checked.2
        let userData : AccessPayload :=
          { id := user.id, email := user.email, name := user.name, role := user.role }
        let accessToken := generateAccessTokenOf cfg userData now
        let refreshToken := generateRefreshToken cfg user.id now
        let db2 : Db :=
          { db with refreshTokens := db.refreshTokens ++
              [{ userId := user.id, token := refreshToken, expiresAt := now + sevenDaysMs }] }
        ({ status := 200, success := true, code := none, retryAfter := none
           attemptsRemaining := none, accessToken := some accessToken
           refreshToken := some refreshToken }, tracked.2, db2)
      else
        let tracked := trackLoginAttempt cfg email false now checked.2
        ({ ApiResponse.err 401 "INVALID_CREDENTIALS" with
             attemptsRemaining := tracked.1.attemptsRemaining }, tracked.2, db)

/-- Handler body of `POST /api/auth/refresh`. -/
def refreshHandler (cfg : Config) (db : Db) (body : Option RefreshTok) (now : Nat) :
    ApiResponse × Db :=
  match body with
  | none => (ApiResponse.err 400 "MISSING_REFRESH_TOKEN", db)
  | some tok =>
    match verifyRefreshToken cfg tok now with
    | none => (ApiResponse.err 401 "INVALID_REFRESH_TOKEN", db)
    | some decoded =>
      match db.refreshTokens.find?
          (fun r => decide (r.userId = decoded.id ∧ r.token = tok ∧ now < r.expiresAt)) with
      | none => (ApiResponse.err 401 "TOKEN_NOT_FOUND", db)
      | some _ =>
        match db.users.find? (fun u => u.id == decoded.id) with
        | none => (ApiResponse.err 401 "USER_NOT_FOUND", db)
        | some user =>
          let userData : AccessPayload :=
            { id := user.id, email := user.email, name := user.name, role := user.role }
          ({ status := 200, success := true, code := none, retryAfter := none
             attemptsRemaining := none
             accessToken := some (generateAccessTokenOf cfg userData now)
             refreshToken := none }, db)

/-- Handler body of `POST /api/auth/logout`, after `authenticate` attached
the principal with id `principalId`. -/
def logoutHandler (db : Db) (principalId : Nat) (body : Option RefreshTok) :
    ApiResponse × Db :=
  match body with
  | some tok =>
    ({ status := 200, success := true, code := none, retryAfter := none
       attemptsRemaining := none, accessToken := none, refreshToken := none },
     { db with refreshTokens :=
         db.refreshTokens.filter (fun r => !decide (r.userId = principalId ∧ r.token = tok)) })
  | none =>
    ({ status := 200, success := true, code := none, retryAfter := none
       attemptsRemaining := none, accessToken := none, refreshToken := none },
     { db with refreshTokens :=
         db.refreshTokens.filter (fun r => !decide (r.userId = principalId)) })

/-! ### Request-sequence runners and the claimed invariant -/

/-- Process a sequence of requests for one client through the middleware of
a single limiter instance, threading the shared `rateLimitStore`. -/
def runRate (maxRequests windowMs : Nat) (key : String) :
    List Nat → RateStore → List RateOutcome × RateStore
  | [], s => ([], s)
  | t :: ts, s =>
    let r := rateLimit maxRequests windowMs key t s
    let rest := runRate maxRequests windowMs key ts r.2
    (r.1 :: rest.1, rest.2)

/-- A run of consecutive failed `trackLoginAttempt` calls for one email at
the given times. -/
def runFailures (cfg : Config) (email : String) :
    List Nat → LoginStore → List TrackResult × LoginStore
  | [], s => ([], s)
  | t :: ts, s =>
    let r := trackLoginAttempt cfg email false t s
    let rest := runFailures cfg email ts r.2
    (r.1 :: rest.1, rest.2)

/-- A run of `POST /login` submissions with the same credentials at the
given times, threading the `loginAttempts` store and the data store. -/
def runLogins (cfg : Config) (email password : String) :
    List Nat → LoginStore × Db → List ApiResponse × (LoginStore × Db)
  | [], sd => ([], sd)
  | t :: ts, sd =>
    let r := loginHandler cfg sd.2 email password t sd.1
    let rest := runLogins cfg email password ts (r.2.1, r.2.2)
    (r.1 :: rest.1, rest.2)

/-- Every record persisted in the `loginAttempts` map keeps its counter
strictly below the lockout threshold. -/
def AttemptsInv (cfg : Config) (s : LoginStore) : Prop :=
  ∀ (email : String) (rec : AttemptRecord),
    lookupA email s = some rec → rec.attempts ≤ cfg.security.maxLoginAttempts - 1

/-- Data store for the lockout login scenario: one professor account. -/
def scenarioDb : Db :=
  { users := [{ id := 1, email := "prof@x.edu", name := "Prof", role := "professor"
                password := "correct-pass" }]
    refreshTokens := [] }

/-! ## Theorems

First the store lemmas shared by the developments below, then the claims. -/

theorem lookupA_setA_self {α : Type} (k : String) (v : α) (s : List (String × α)) :
    lookupA k (setA k v s) = some v := by
  induction s with
  | nil => simp [setA, lookupA]
  | cons hd tl ih =>
    by_cases h : hd.1 = k
    · simp [setA, lookupA, h]
    · simp [setA, lookupA, h, ih]

theorem lookupA_setA_ne {α : Type} (k k' : String) (v : α) (s : List (String × α))
    (h : k ≠ k') : lookupA k' (setA k v s) = lookupA k' s := by
  induction s with
  | nil => simp [setA, lookupA, h]
  | cons hd tl ih =>
    by_cases hh : hd.1 = k
    · simp [setA, lookupA, hh, h]
    · simp [setA, lookupA, hh, ih]

theorem lookupA_eraseA_self {α : Type} (k : String) (s : List (String × α)) :
    lookupA k (eraseA k s) = none := by
  induction s with
  | nil => simp [eraseA, lookupA]
  | cons hd tl ih =>
    by_cases h : hd.1 = k
    · simp [eraseA, h, ih]
    · simp [eraseA, lookupA, h, ih]

theorem lookupA_eraseA_ne {α : Type} (k k' : String) (s : List (String × α))
    (h : k ≠ k') : lookupA k' (eraseA k s) = lookupA k' s := by
  induction s with
  | nil => simp [eraseA]
  | cons hd tl ih =>
    by_cases hh : hd.1 = k
    · simp [eraseA, lookupA, hh, ih, h]
    · simp [eraseA, lookupA, hh, ih]

/-! ### Step lemmas for the login attempt guard -/

theorem trackLoginAttempt_from_none (cfg : Config) (email : String) (suc : Bool)
    (now : Nat) (s : LoginStore) (h : lookupA email s = none) :
    trackLoginAttempt cfg email suc now s =
      trackLoginAttempt cfg email suc now (setA email ⟨0, none⟩ s) := by
  simp [trackLoginAttempt, h, lookupA_setA_self]

theorem trackLoginAttempt_fail_incr (cfg : Config) (email : String) (now a : Nat)
    (s : LoginStore) (hrec : lookupA email s = some ⟨a, none⟩)
    (hlt : a + 1 < cfg.security.maxLoginAttempts) :
    trackLoginAttempt cfg email false now s =
      ({ locked := false, remainingSeconds := none
         attemptsRemaining := some (cfg.security.maxLoginAttempts - (a + 1)) },
       setA email ⟨a + 1, none⟩ s) := by
  simp [trackLoginAttempt, hrec, lockActive, Nat.not_le.mpr hlt]

theorem trackLoginAttempt_fail_trip (cfg : Config) (email : String) (now a : Nat)
    (s : LoginStore) (hrec : lookupA email s = some ⟨a, none⟩)
    (hge : cfg.security.maxLoginAttempts ≤ a + 1) :
    trackLoginAttempt cfg email false now s =
      ({ locked := true
         remainingSeconds := some (ceilDivN cfg.security.lockoutDuration 1000)
         attemptsRemaining := none },
       setA email ⟨0, some (now + cfg.security.lockoutDuration)⟩ s) := by
  simp [trackLoginAttempt, hrec, lockActive, hge]

theorem trackLoginAttempt_locked (cfg : Config) (email : String) (now a l : Nat)
    (s : LoginStore) (hrec : lookupA email s = some ⟨a, some l⟩)
    (h0 : 0 < l) (hnow : now < l) :
    trackLoginAttempt cfg email false now s =
      ({ locked := true, remainingSeconds := some (ceilDivN (l - now) 1000)
         attemptsRemaining := none }, s) := by
  simp [trackLoginAttempt, hrec, lockActive, h0, hnow]

theorem trackLoginAttempt_success (cfg : Config) (email : String) (now : Nat)
    (s : LoginStore) :
    (trackLoginAttempt cfg email true now s).1 =
      { locked := false, remainingSeconds := none, attemptsRemaining := none } ∧
    lookupA email (trackLoginAttempt cfg email true now s).2 = none ∧
    (∀ k, k ≠ email → lookupA k (trackLoginAttempt cfg email true now s).2 = lookupA k s) := by
  refine ⟨?_, ?_, ?_⟩
  · cases h : lookupA email s <;> simp [trackLoginAttempt, h]
  · cases h : lookupA email s <;> simp [trackLoginAttempt, h, lookupA_eraseA_self]
  · intro k hk
    have hne : email ≠ k := fun e => hk e.symm
    cases h : lookupA email s with
    | none =>
      simp [trackLoginAttempt, h]
      rw [lookupA_eraseA_ne email k _ hne, lookupA_setA_ne email k _ _ hne]
    | some rec =>
      simp [trackLoginAttempt, h]
      rw [lookupA_eraseA_ne email k _ hne]

theorem isAccountLocked_no_record (email : String) (now : Nat) (s : LoginStore)
    (h : lookupA email s = none) :
    isAccountLocked email now s = ({ locked := false, remainingSeconds := none }, s) := by
  simp [isAccountLocked, h]

theorem isAccountLocked_no_lock (email : String) (now a : Nat) (s : LoginStore)
    (h : lookupA email s = some ⟨a, none⟩) :
    isAccountLocked email now s = ({ locked := false, remainingSeconds := none }, s) := by
  simp [isAccountLocked, h]

theorem isAccountLocked_active (email : String) (now a l : Nat) (s : LoginStore)
    (h : lookupA email s = some ⟨a, some l⟩) (h0 : 0 < l) (hnow : now < l) :
    isAccountLocked email now s =
      ({ locked := true, remainingSeconds := some (ceilDivN (l - now) 1000) }, s) := by
  simp [isAccountLocked, h, h0.ne', hnow]

theorem isAccountLocked_expired (email : String) (now a l : Nat) (s : LoginStore)
    (h : lookupA email s = some ⟨a, some l⟩) (h0 : 0 < l) (hnow : l ≤ now) :
    isAccountLocked email now s =
      ({ locked := false, remainingSeconds := none }, eraseA email s) := by
  simp [isAccountLocked, h, h0.ne', Nat.not_lt.mpr hnow]

/-- C7: for a record carrying a lock, `isAccountLocked` before `lockUntil`
returns locked with `remainingSeconds = ceil((lockUntil - now)/1000)` and
leaves the store unchanged; from `lockUntil` on it returns unlocked and its
only side effect is deleting that record. -/
theorem isAccountLocked_lifecycle (email : String) (now a l : Nat) (s : LoginStore)
    (hrec : lookupA email s = some ⟨a, some l⟩) (h0 : 0 < l) :
    (now < l →
      isAccountLocked email now s =
        ({ locked := true, remainingSeconds := some (ceilDivN (l - now) 1000) }, s)) ∧
    (l ≤ now →
      (isAccountLocked email now s).1 = { locked := false, remainingSeconds := none } ∧
      (isAccountLocked email now s).2 = eraseA email s ∧
      lookupA email (isAccountLocked email now s).2 = none ∧
      (∀ k, k ≠ email → lookupA k (isAccountLocked email now s).2 = lookupA k s)) := by
  constructor
  · intro hnow
    exact isAccountLocked_active email now a l s hrec h0 hnow
  · intro hnow
    rw [isAccountLocked_expired email now a l s hrec h0 hnow]
    refine ⟨rfl, rfl, lookupA_eraseA_self email s, ?_⟩
    intro k hk
    exact lookupA_eraseA_ne email k s (fun e => hk e.symm)

/-- Witness for C7 at a concrete locked record (`lockUntil = 10`, queried
at 20): the lock has expired, the call reports unlocked and deletes the
record. -/
theorem isAccountLocked_lifecycle_witness :
    (isAccountLocked "a@x.edu" 20 [("a@x.edu", ⟨3, some 10⟩)]).1 =
      { locked := false, remainingSeconds := none } ∧
    lookupA "a@x.edu" (isAccountLocked "a@x.edu" 20 [("a@x.edu", ⟨3, some 10⟩)]).2 = none := by
  have h := isAccountLocked_lifecycle "a@x.edu" 20 3 10 [("a@x.edu", ⟨3, some 10⟩)]
    (by simp [lookupA]) (by decide)
  exact ⟨(h.2 (by decide)).1, (h.2 (by decide)).2.2.1⟩

/-- C8 counterexample: for an identity currently locked
(`lockUntil = 1000000`, `now = 0`, stored `attempts = 2`), a failed
`trackLoginAttempt` does NOT follow the ordinary failure rules (which
would increment the counter to 3 and return
`{locked := false, attemptsRemaining := some 2}`): the guard re-checks the
lock state itself and returns a locked result, leaving the store
unchanged. -/
theorem trackLoginAttempt_recheck_cex :
    (trackLoginAttempt defaultConfig "u@x.edu" false 0
        [("u@x.edu", ⟨2, some 1000000⟩)]).1 =
      { locked := true, remainingSeconds := some 1000, attemptsRemaining := none } ∧
    (trackLoginAttempt defaultConfig "u@x.edu" false 0
        [("u@x.edu", ⟨2, some 1000000⟩)]).2 =
      [("u@x.edu", ⟨2, some 1000000⟩)] := by
  constructor <;> rfl

/-- C8 (amended): `trackLoginAttempt` itself re-checks the lock state: for
an identity whose `lockUntil` lies in the future, a `success = false` call
short-circuits inside the guard, returning a locked result with
`remainingSeconds = ceil((lockUntil - now)/1000)` and leaving the stored
record (in particular the attempt counter) unchanged; the caller's
`isAccountLocked` check before password verification is an additional,
not the only, short-circuit. -/
theorem trackLoginAttempt_rechecks_lock (cfg : Config) (email : String)
    (now a l : Nat) (s : LoginStore)
    (hrec : lookupA email s = some ⟨a, some l⟩) (h0 : 0 < l) (hnow : now < l) :
    trackLoginAttempt cfg email false now s =
      ({ locked := true, remainingSeconds := some (ceilDivN (l - now) 1000)
         attemptsRemaining := none }, s) :=
  trackLoginAttempt_locked cfg email now a l s hrec h0 hnow

/-- Witness for the amended C8 at the counterexample input. -/
theorem trackLoginAttempt_rechecks_lock_witness :
    trackLoginAttempt defaultConfig "u@x.edu" false 0
        [("u@x.edu", ⟨2, some 1000000⟩)] =
      ({ locked := true, remainingSeconds := some (ceilDivN (1000000 - 0) 1000)
         attemptsRemaining := none }, [("u@x.edu", ⟨2, some 1000000⟩)]) :=
  trackLoginAttempt_rechecks_lock defaultConfig "u@x.edu" 0 2 1000000
    [("u@x.edu", ⟨2, some 1000000⟩)] (by simp [lookupA]) (by decide) (by decide)

/-! ### Rate limiter: shared store across instances (C2) -/

/-- C2 counterexample: the middleware instances returned by the factory all
close over the single module-level `rateLimitStore`.  Five requests from
client `"c"` processed by the global instance (`maxRequests = 100`,
`windowMs = 900000`) change the record that the auth instance
(`maxRequests = 5`, `windowMs = 3600000`) observes for `"c"` — from no
record to `{count := 5, resetTime := 900000}` — and flip the auth
instance's next answer for that client from allowed to rejected. -/
theorem rateLimit_shared_store_cex :
    lookupA "c" ([] : RateStore) = none ∧
    lookupA "c" (runRate 100 900000 "c" [0, 1, 2, 3, 4] []).2 =
      some { count := 5, resetTime := 900000 } ∧
    (rateLimit 5 3600000 "c" 5 []).1 = RateOutcome.allowed ∧
    (rateLimit 5 3600000 "c" 5 (runRate 100 900000 "c" [0, 1, 2, 3, 4] []).2).1 =
      RateOutcome.rejected 900 := by
  refine ⟨rfl, rfl, rfl, rfl⟩

/-- C2 (amended): all limiter instances share the single module-level
record map keyed by client identity: a request processed through any one
instance writes the record that every instance subsequently observes for
that client, while records of every other client are left unchanged (no
cross-client interference). -/
theorem rateLimit_shared_store (m1 w1 : Nat) (key : String) (t : Nat) (s : RateStore) :
    (lookupA key s = none →
      lookupA key (rateLimit m1 w1 key t s).2 = some { count := 1, resetTime := t + w1 }) ∧
    (∀ k, k ≠ key → lookupA k (rateLimit m1 w1 key t s).2 = lookupA k s) := by
  constructor
  · intro hnone
    simp [rateLimit, hnone, lookupA_setA_self]
  · intro k hk
    have hne : key ≠ k := fun e => hk e.symm
    cases h : lookupA key s with
    | none =>
      simp only [rateLimit, h]
      rw [lookupA_setA_ne key k _ _ hne]
    | some rec =>
      simp only [rateLimit, h]
      by_cases h1 : rec.resetTime < t
      · simp only [if_pos h1]
        rw [lookupA_setA_ne key k _ _ hne]
      · by_cases h2 : m1 ≤ rec.count
        · simp only [if_neg h1, if_pos h2]
        · simp only [if_neg h1, if_neg h2]
          rw [lookupA_setA_ne key k _ _ hne]

/-- Witness for the amended C2: a first request for client `"c"` through
the global instance writes the shared record, and client `"d"` is
untouched. -/
theorem rateLimit_shared_store_witness :
    lookupA "c" (rateLimit 100 900000 "c" 7 [("d", ⟨2, 50⟩)]).2 =
      some { count := 1, resetTime := 900007 } ∧
    lookupA "d" (rateLimit 100 900000 "c" 7 [("d", ⟨2, 50⟩)]).2 =
      lookupA "d" [("d", (⟨2, 50⟩ : RateRecord))] := by
  have h := rateLimit_shared_store 100 900000 "c" 7 [("d", ⟨2, 50⟩)]
  exact ⟨h.1 rfl, h.2 "d" (by decide)⟩

/-! ### Access control gate (C6) and the optional variant (C9) -/

/-- C6: the required gate classifies each request: missing or malformed
bearer header → 401 `MISSING_TOKEN`; correctly signed but expired →
401 `TOKEN_EXPIRED`; bad signature, or unexpired with wrong
issuer/audience → 401 `INVALID_TOKEN`; valid → principal attached; then
`authorize` rejects 403 `FORBIDDEN` exactly when the principal role is
outside the endpoint's allowed-roles list, and passes through otherwise. -/
theorem authenticate_authorize_classification (cfg : Config) (now : Nat) :
    authenticate cfg .absent now = .reject 401 "MISSING_TOKEN" ∧
    authenticate cfg .malformed now = .reject 401 "MISSING_TOKEN" ∧
    (∀ tok : AccessToken, tok.secret = cfg.jwt.secret → tok.exp ≤ now →
      authenticate cfg (.bearer tok) now = .reject 401 "TOKEN_EXPIRED") ∧
    (∀ tok : AccessToken, tok.secret ≠ cfg.jwt.secret →
      authenticate cfg (.bearer tok) now = .reject 401 "INVALID_TOKEN") ∧
    (∀ tok : AccessToken, tok.secret = cfg.jwt.secret → now < tok.exp →
      tok.issuer ≠ cfg.jwt.issuer ∨ tok.audience ≠ cfg.jwt.audience →
      authenticate cfg (.bearer tok) now = .reject 401 "INVALID_TOKEN") ∧
    (∀ tok : AccessToken, tok.secret = cfg.jwt.secret → now < tok.exp →
      tok.issuer = cfg.jwt.issuer → tok.audience = cfg.jwt.audience →
      authenticate cfg (.bearer tok) now = .next (some tok.payload)) ∧
    (∀ (roles : List String) (p : AccessPayload), roles.contains p.role = false →
      authorize roles (some p) = .reject 403 "FORBIDDEN") ∧
    (∀ (roles : List String) (p : AccessPayload), roles.contains p.role = true →
      authorize roles (some p) = .next (some p)) := by
  refine ⟨rfl, rfl, ?_, ?_, ?_, ?_, ?_, ?_⟩
  · intro tok hsec hexp
    simp [authenticate, jwtVerifyAccess, hsec, hexp]
  · intro tok hsec
    simp [authenticate, jwtVerifyAccess, hsec]
  · intro tok hsec hexp hmis
    simp [authenticate, jwtVerifyAccess, hsec, Nat.not_le.mpr hexp, hmis]
  · intro tok hsec hexp hiss haud
    simp [authenticate, jwtVerifyAccess, hsec, Nat.not_le.mpr hexp, hiss, haud]
  · intro roles p hc
    simp only [authorize, hc]
    rfl
  · intro roles p hc
    simp only [authorize, hc]
    rfl

/-- Witness for C6: an expired token signed with the right secret is
rejected `TOKEN_EXPIRED`, and a professor principal is rejected
`FORBIDDEN` by an admin-only endpoint. -/
theorem authenticate_authorize_classification_witness :
    authenticate defaultConfig
        (.bearer ⟨⟨1, "p@x.edu", "P", "professor"⟩, "edupay-access",
          "EduPay Platform", "EduPay Users", 10⟩) 10 =
      .reject 401 "TOKEN_EXPIRED" ∧
    authorize ["admin"] (some ⟨1, "p@x.edu", "P", "professor"⟩) =
      .reject 403 "FORBIDDEN" := by
  have h := authenticate_authorize_classification defaultConfig 10
  exact ⟨h.2.2.1 _ rfl (by decide), h.2.2.2.2.2.2.1 ["admin"] _ (by decide)⟩

/-- C9: the optional authentication variant always calls the next stage
(never rejects); it verifies signature and expiry only, so any correctly
signed unexpired token gets its claims attached regardless of
issuer/audience — and there is a token (right secret, unexpired, wrong
issuer) that `authenticate` rejects with `INVALID_TOKEN` while
`optionalAuth` attaches its payload as the principal. -/
theorem optionalAuth_never_rejects (cfg : Config) :
    (∀ (h : AuthHeader) (now : Nat), ∃ u, optionalAuth cfg h now = .next u) ∧
    (∀ (tok : AccessToken) (now : Nat), tok.secret = cfg.jwt.secret → now < tok.exp →
      optionalAuth cfg (.bearer tok) now = .next (some tok.payload)) ∧
    (∃ (tok : AccessToken) (now : Nat),
      tok.secret = cfg.jwt.secret ∧ now < tok.exp ∧ tok.issuer ≠ cfg.jwt.issuer ∧
      authenticate cfg (.bearer tok) now = .reject 401 "INVALID_TOKEN" ∧
      optionalAuth cfg (.bearer tok) now = .next (some tok.payload)) := by
  refine ⟨?_, ?_, ?_⟩
  · intro h now
    cases h with
    | absent => exact ⟨none, rfl⟩
    | malformed => exact ⟨none, rfl⟩
    | bearer tok =>
      cases hv : jwtVerifyNoOpts cfg.jwt.secret tok now with
      | ok p => exact ⟨some p, by simp [optionalAuth, hv]⟩
      | error e => exact ⟨none, by simp [optionalAuth, hv]⟩
  · intro tok now hsec hexp
    simp [optionalAuth, jwtVerifyNoOpts, hsec, Nat.not_le.mpr hexp]
  · have hne : cfg.jwt.issuer ++ "!" ≠ cfg.jwt.issuer := by
      intro e
      have h := congrArg String.length e
      rw [String.length_append] at h
      have h1 : ("!" : String).length = 1 := rfl
      omega
    refine ⟨⟨⟨1, "p@x.edu", "P", "professor"⟩, cfg.jwt.secret,
      cfg.jwt.issuer ++ "!", cfg.jwt.audience, 1⟩, 0, rfl, Nat.zero_lt_one, hne, ?_, ?_⟩
    · simp [authenticate, jwtVerifyAccess, hne]
    · simp [optionalAuth, jwtVerifyNoOpts]

/-- Witness for C9's universally quantified parts at a concrete header. -/
theorem optionalAuth_never_rejects_witness :
    optionalAuth defaultConfig
        (.bearer ⟨⟨1, "p@x.edu", "P", "professor"⟩, "edupay-access",
          "elsewhere", "nobody", 5⟩) 0 =
      .next (some ⟨1, "p@x.edu", "P", "professor"⟩) :=
  (optionalAuth_never_rejects defaultConfig).2.1
    ⟨⟨1, "p@x.edu", "P", "professor"⟩, "edupay-access", "elsewhere", "nobody", 5⟩
    0 rfl (by decide)

/-! ### Rate limiter window correctness (C4) -/

theorem runRate_in_window (maxR w : Nat) (key : String) (R : Nat) (times : List Nat) :
    ∀ (c : Nat) (s : RateStore), lookupA key s = some ⟨c, R⟩ →
      (∀ t ∈ times, t ≤ R) → c + times.length ≤ maxR →
      (runRate maxR w key times s).1 = times.map (fun _ => RateOutcome.allowed) ∧
      lookupA key (runRate maxR w key times s).2 = some ⟨c + times.length, R⟩ := by
  induction times with
  | nil =>
    intro c s h _ _
    exact ⟨rfl, by simpa using h⟩
  | cons t ts ih =>
    intro c s h hin hle
    have h1 : ¬ R < t := Nat.not_lt.mpr (hin t (by simp))
    have h2 : ¬ maxR ≤ c := by
      simp only [List.length_cons] at hle
      omega
    have hstep : rateLimit maxR w key t s =
        (RateOutcome.allowed, setA key ⟨c + 1, R⟩ s) := by
      simp [rateLimit, h, h1, h2]
    have hlook : lookupA key (setA key (⟨c + 1, R⟩ : RateRecord) s) = some ⟨c + 1, R⟩ :=
      lookupA_setA_self key ⟨c + 1, R⟩ s
    have ihres := ih (c + 1) (setA key ⟨c + 1, R⟩ s) hlook
      (fun t' ht' => hin t' (by simp [ht'])) (by simp only [List.length_cons] at hle; omega)
    have hcount : c + 1 + ts.length = c + (t :: ts).length := by
      simp only [List.length_cons]
      omega
    constructor
    · simp [runRate, hstep, ihres.1]
    · rw [← hcount]
      simp [runRate, hstep, ihres.2]

/-- C4: starting fresh, each of the first `maxRequests` requests inside the
window is allowed, the `(maxRequests+1)`th inside the window is rejected
with a positive `retryAfter`, the stored count never exceeds
`maxRequests`, and a request after `resetTime` starts a fresh window and
is allowed. -/
theorem rateLimit_window_correct (maxR w t1 textra : Nat) (key : String)
    (rest : List Nat) (s0 : RateStore)
    (hmax : 1 ≤ maxR) (h0 : lookupA key s0 = none)
    (hlen : rest.length = maxR - 1)
    (hin : ∀ t ∈ rest, t ≤ t1 + w) (hx : textra < t1 + w) :
    (runRate maxR w key (t1 :: rest) s0).1 =
      (t1 :: rest).map (fun _ => RateOutcome.allowed) ∧
    lookupA key (runRate maxR w key (t1 :: rest) s0).2 =
      some { count := maxR, resetTime := t1 + w } ∧
    (rateLimit maxR w key textra (runRate maxR w key (t1 :: rest) s0).2).1 =
      RateOutcome.rejected (ceilDivN (t1 + w - textra) 1000) ∧
    0 < ceilDivN (t1 + w - textra) 1000 ∧
    (rateLimit maxR w key textra (runRate maxR w key (t1 :: rest) s0).2).2 =
      (runRate maxR w key (t1 :: rest) s0).2 ∧
    (∀ (now : Nat) (s : RateStore),
      (∀ rec : RateRecord, lookupA key s = some rec → rec.count ≤ maxR) →
      ∀ rec : RateRecord, lookupA key (rateLimit maxR w key now s).2 = some rec →
        rec.count ≤ maxR) ∧
    (∀ (now : Nat) (s : RateStore) (rec : RateRecord), lookupA key s = some rec →
      rec.resetTime < now →
      (rateLimit maxR w key now s).1 = RateOutcome.allowed ∧
      lookupA key (rateLimit maxR w key now s).2 =
        some { count := 1, resetTime := now + w }) := by
  have hstep1 : rateLimit maxR w key t1 s0 =
      (RateOutcome.allowed, setA key ⟨1, t1 + w⟩ s0) := by
    simp [rateLimit, h0]
  have hrun := runRate_in_window maxR w key (t1 + w) rest 1
    (setA key ⟨1, t1 + w⟩ s0) (lookupA_setA_self key ⟨1, t1 + w⟩ s0) hin (by omega)
  have hfull1 : (runRate maxR w key (t1 :: rest) s0).1 =
      (t1 :: rest).map (fun _ => RateOutcome.allowed) := by
    simp [runRate, hstep1, hrun.1]
  have hcnt : 1 + rest.length = maxR := by omega
  have hfull2 : lookupA key (runRate maxR w key (t1 :: rest) s0).2 =
      some { count := maxR, resetTime := t1 + w } := by
    rw [hcnt] at hrun
    simp [runRate, hstep1, hrun.2]
  have hnotlt : ¬ t1 + w < textra := by omega
  have hreject : rateLimit maxR w key textra (runRate maxR w key (t1 :: rest) s0).2 =
      (RateOutcome.rejected (ceilDivN (t1 + w - textra) 1000),
       (runRate maxR w key (t1 :: rest) s0).2) := by
    simp [rateLimit, hfull2, hnotlt]
  refine ⟨hfull1, hfull2, by rw [hreject], ?_, by rw [hreject], ?_, ?_⟩
  · unfold ceilDivN
    omega
  · intro now s hinv rec hrec
    cases h : lookupA key s with
    | none =>
      rw [rateLimit] at hrec
      simp only [h, lookupA_setA_self] at hrec
      cases hrec
      exact hmax
    | some r =>
      rw [rateLimit] at hrec
      simp only [h] at hrec
      by_cases hw : r.resetTime < now
      · simp only [if_pos hw, lookupA_setA_self] at hrec
        cases hrec
        exact hmax
      · by_cases hc : maxR ≤ r.count
        · simp only [if_neg hw, if_pos hc] at hrec
          rw [h] at hrec
          have he : r = rec := Option.some.inj hrec
          rw [← he]
          exact hinv r h
        · simp only [if_neg hw, if_neg hc, lookupA_setA_self] at hrec
          cases hrec
          show r.count + 1 ≤ maxR
          omega
  · intro now s rec hrec hlt
    constructor
    · simp [rateLimit, hrec, hlt]
    · simp [rateLimit, hrec, hlt, lookupA_setA_self]

/-- Witness for C4 with `maxRequests = 2`, `windowMs = 1000`: requests at
times 0 and 5 are allowed, a third at 10 inside the window is rejected
with `retryAfter = 1`. -/
theorem rateLimit_window_correct_witness :
    (runRate 2 1000 "c" [0, 5] []).1 = [RateOutcome.allowed, RateOutcome.allowed] ∧
    (rateLimit 2 1000 "c" 10 (runRate 2 1000 "c" [0, 5] []).2).1 =
      RateOutcome.rejected (ceilDivN (0 + 1000 - 10) 1000) := by
  have h := rateLimit_window_correct 2 1000 0 10 "c" [5] [] (by decide) rfl rfl
    (by simp) (by decide)
  exact ⟨h.1, h.2.2.1⟩

/-! ### Lockout after exactly `maxLoginAttempts` failures (C5) -/

theorem ceilDivN_of_mod_eq_zero (a : Nat) (h : a % 1000 = 0) :
    ceilDivN a 1000 = a / 1000 := by
  unfold ceilDivN
  omega

theorem runFailures_below (cfg : Config) (email : String) (times : List Nat) :
    ∀ (a : Nat) (s : LoginStore), lookupA email s = some ⟨a, none⟩ →
      a + times.length < cfg.security.maxLoginAttempts →
      (runFailures cfg email times s).1 =
        (List.range times.length).map (fun i =>
          ({ locked := false, remainingSeconds := none
             attemptsRemaining := some (cfg.security.maxLoginAttempts - (a + i + 1)) } :
            TrackResult)) ∧
      lookupA email (runFailures cfg email times s).2 =
        some ⟨a + times.length, none⟩ := by
  induction times with
  | nil =>
    intro a s h _
    exact ⟨rfl, by simpa using h⟩
  | cons t ts ih =>
    intro a s h hlt
    have hlen : a + (t :: ts).length = a + ts.length + 1 := by
      simp only [List.length_cons]
      omega
    have hstep := trackLoginAttempt_fail_incr cfg email t a s h (by omega)
    have hlook : lookupA email (setA email (⟨a + 1, none⟩ : AttemptRecord) s) =
        some ⟨a + 1, none⟩ := lookupA_setA_self email ⟨a + 1, none⟩ s
    have ihres := ih (a + 1) (setA email ⟨a + 1, none⟩ s) hlook (by omega)
    constructor
    · have hhead : (runFailures cfg email (t :: ts) s).1 =
          ({ locked := false, remainingSeconds := none
             attemptsRemaining := some (cfg.security.maxLoginAttempts - (a + 1)) } :
            TrackResult) :: (runFailures cfg email ts (setA email ⟨a + 1, none⟩ s)).1 := by
        simp [runFailures, hstep]
      rw [hhead, ihres.1]
      simp only [List.length_cons, List.range_succ_eq_map, List.map_cons, List.map_map]
      congr 1
      rw [List.map_eq_map_iff]
      intro i _
      have harith : a + 1 + i + 1 = a + Nat.succ i + 1 := by omega
      simp [Function.comp, harith]
    · have htail : (runFailures cfg email (t :: ts) s).2 =
          (runFailures cfg email ts (setA email ⟨a + 1, none⟩ s)).2 := by
        simp [runFailures, hstep]
      rw [htail, ihres.2, hlen]
      have harith2 : a + 1 + ts.length = a + ts.length + 1 := by omega
      rw [harith2]

theorem runFailures_from_none (cfg : Config) (email : String) (t : Nat)
    (ts : List Nat) (s0 : LoginStore)
    (hnone : lookupA email s0 = none)
    (hlt : ts.length + 1 < cfg.security.maxLoginAttempts) :
    (runFailures cfg email (t :: ts) s0).1 =
      (List.range (ts.length + 1)).map (fun i =>
        ({ locked := false, remainingSeconds := none
           attemptsRemaining := some (cfg.security.maxLoginAttempts - (i + 1)) } :
          TrackResult)) ∧
    lookupA email (runFailures cfg email (t :: ts) s0).2 =
      some ⟨ts.length + 1, none⟩ := by
  have hterm := trackLoginAttempt_from_none cfg email false t s0 hnone
  have hlook0 : lookupA email (setA email (⟨0, none⟩ : AttemptRecord) s0) =
      some ⟨0, none⟩ := lookupA_setA_self email ⟨0, none⟩ s0
  have hstep := trackLoginAttempt_fail_incr cfg email t 0
    (setA email ⟨0, none⟩ s0) hlook0 (by omega)
  have hlook1 : lookupA email
      (setA email (⟨1, none⟩ : AttemptRecord) (setA email ⟨0, none⟩ s0)) =
      some ⟨1, none⟩ := lookupA_setA_self email (⟨1, none⟩ : AttemptRecord) (setA email ⟨0, none⟩ s0)
  have hbelow := runFailures_below cfg email ts 1
    (setA email ⟨1, none⟩ (setA email ⟨0, none⟩ s0)) hlook1 (by omega)
  constructor
  · have hhead : (runFailures cfg email (t :: ts) s0).1 =
        ({ locked := false, remainingSeconds := none
           attemptsRemaining := some (cfg.security.maxLoginAttempts - 1) } :
          TrackResult) ::
          (runFailures cfg email ts
            (setA email ⟨1, none⟩ (setA email ⟨0, none⟩ s0))).1 := by
      simp [runFailures, hterm, hstep]
    rw [hhead, hbelow.1]
    simp only [List.range_succ_eq_map, List.map_cons, List.map_map]
    congr 1
    rw [List.map_eq_map_iff]
    intro i _
    have harith : 1 + i + 1 = Nat.succ i + 1 := by omega
    simp [Function.comp, harith]
  · have htail : (runFailures cfg email (t :: ts) s0).2 =
        (runFailures cfg email ts
          (setA email ⟨1, none⟩ (setA email ⟨0, none⟩ s0))).2 := by
      simp [runFailures, hterm, hstep]
    rw [htail, hbelow.2]
    have : 1 + ts.length = ts.length + 1 := by omega
    rw [this]

/-- C5: starting from no record, each of the first
`maxLoginAttempts - 1` failed `trackLoginAttempt` calls returns unlocked
with `attemptsRemaining = maxLoginAttempts - attempts`; the
`maxLoginAttempts`-th failure returns locked with
`remainingSeconds = lockoutDuration/1000`, sets
`lockUntil = now + lockoutDuration` and resets the stored counter to 0;
and a `success = true` call at any point deletes the record entirely. -/
theorem trackLoginAttempt_lockout (cfg : Config) (email : String) (ts : List Nat)
    (tn : Nat) (s0 : LoginStore)
    (hnone : lookupA email s0 = none)
    (hlen : ts.length + 1 = cfg.security.maxLoginAttempts)
    (hdvd : cfg.security.lockoutDuration % 1000 = 0) :
    (runFailures cfg email ts s0).1 =
      (List.range ts.length).map (fun i =>
        ({ locked := false, remainingSeconds := none
           attemptsRemaining := some (cfg.security.maxLoginAttempts - (i + 1)) } :
          TrackResult)) ∧
    (trackLoginAttempt cfg email false tn (runFailures cfg email ts s0).2).1 =
      { locked := true, remainingSeconds := some (cfg.security.lockoutDuration / 1000)
        attemptsRemaining := none } ∧
    lookupA email (trackLoginAttempt cfg email false tn (runFailures cfg email ts s0).2).2 =
      some ⟨0, some (tn + cfg.security.lockoutDuration)⟩ ∧
    (∀ (s : LoginStore) (now : Nat),
      (trackLoginAttempt cfg email true now s).1 =
        { locked := false, remainingSeconds := none, attemptsRemaining := none } ∧
      lookupA email (trackLoginAttempt cfg email true now s).2 = none) := by
  have hsucc : ∀ (s : LoginStore) (now : Nat),
      (trackLoginAttempt cfg email true now s).1 =
        { locked := false, remainingSeconds := none, attemptsRemaining := none } ∧
      lookupA email (trackLoginAttempt cfg email true now s).2 = none := by
    intro s now
    exact ⟨(trackLoginAttempt_success cfg email now s).1,
      (trackLoginAttempt_success cfg email now s).2.1⟩
  cases ts with
  | nil =>
    have hrun : runFailures cfg email [] s0 = ([], s0) := rfl
    rw [hrun]
    have hterm := trackLoginAttempt_from_none cfg email false tn s0 hnone
    have hlook0 : lookupA email (setA email (⟨0, none⟩ : AttemptRecord) s0) =
        some ⟨0, none⟩ := lookupA_setA_self email ⟨0, none⟩ s0
    have htrip := trackLoginAttempt_fail_trip cfg email tn 0
      (setA email ⟨0, none⟩ s0) hlook0 (by simp at hlen; omega)
    refine ⟨rfl, ?_, ?_, hsucc⟩
    · rw [hterm, htrip]
      simp [ceilDivN_of_mod_eq_zero _ hdvd]
    · rw [hterm, htrip]
      exact lookupA_setA_self email _ _
  | cons t ts' =>
    have hlt : ts'.length + 1 < cfg.security.maxLoginAttempts := by
      simp only [List.length_cons] at hlen
      omega
    have hfrom := runFailures_from_none cfg email t ts' s0 hnone hlt
    have htrip := trackLoginAttempt_fail_trip cfg email tn (ts'.length + 1)
      (runFailures cfg email (t :: ts') s0).2 hfrom.2
      (by simp only [List.length_cons] at hlen; omega)
    refine ⟨?_, ?_, ?_, hsucc⟩
    · rw [hfrom.1]
      simp only [List.length_cons]
    · rw [htrip]
      simp [ceilDivN_of_mod_eq_zero _ hdvd]
    · rw [htrip]
      exact lookupA_setA_self email _ _

/-- Witness for C5 at the default configuration (threshold 5): four
failures at times 0..3 leave the counter unlocked with decreasing
`attemptsRemaining`; the fifth failure at time 4 locks for 900 seconds. -/
theorem trackLoginAttempt_lockout_witness :
    (runFailures defaultConfig "prof@x.edu" [0, 1, 2, 3] []).1 =
      (List.range 4).map (fun i =>
        ({ locked := false, remainingSeconds := none
           attemptsRemaining := some (defaultConfig.security.maxLoginAttempts - (i + 1)) } :
          TrackResult)) ∧
    (trackLoginAttempt defaultConfig "prof@x.edu" false 4
        (runFailures defaultConfig "prof@x.edu" [0, 1, 2, 3] []).2).1 =
      { locked := true
        remainingSeconds := some (defaultConfig.security.lockoutDuration / 1000)
        attemptsRemaining := none } := by
  have h := trackLoginAttempt_lockout defaultConfig "prof@x.edu" [0, 1, 2, 3] 4 []
    rfl rfl rfl
  exact ⟨h.1, h.2.1⟩

/-! ### Persisted-counter invariant (C10) -/

theorem attemptsInv_setA_zero (cfg : Config) (email : String) (lu : Option Nat)
    (s : LoginStore) (hinv : AttemptsInv cfg s) :
    AttemptsInv cfg (setA email ⟨0, lu⟩ s) := by
  intro k rec hrec
  by_cases hk : email = k
  · subst hk
    rw [lookupA_setA_self] at hrec
    cases hrec
    exact Nat.zero_le _
  · rw [lookupA_setA_ne email k _ s hk] at hrec
    exact hinv k rec hrec

theorem attemptsInv_track_aux (cfg : Config) (email : String) (suc : Bool)
    (now : Nat) (s1 : LoginStore) (a : Nat) (lu : Option Nat)
    (hinv1 : AttemptsInv cfg s1) (hrec1 : lookupA email s1 = some ⟨a, lu⟩) :
    AttemptsInv cfg (trackLoginAttempt cfg email suc now s1).2 := by
  intro k rec hrec
  simp only [trackLoginAttempt, hrec1, Option.getD_some] at hrec
  cases suc with
  | true =>
    simp only [if_pos] at hrec
    by_cases hk : email = k
    · subst hk
      rw [lookupA_eraseA_self] at hrec
      cases hrec
    · rw [lookupA_eraseA_ne email k s1 hk] at hrec
      exact hinv1 k rec hrec
  | false =>
    simp only [Bool.false_eq_true, if_false] at hrec
    by_cases hla : lockActive lu now = true
    · rw [if_pos hla] at hrec
      exact hinv1 k rec hrec
    · rw [if_neg hla] at hrec
      by_cases htrip : cfg.security.maxLoginAttempts ≤ a + 1
      · rw [if_pos htrip] at hrec
        by_cases hk : email = k
        · subst hk
          rw [lookupA_setA_self] at hrec
          cases hrec
          exact Nat.zero_le _
        · rw [lookupA_setA_ne email k _ s1 hk] at hrec
          exact hinv1 k rec hrec
      · rw [if_neg htrip] at hrec
        by_cases hk : email = k
        · subst hk
          rw [lookupA_setA_self] at hrec
          cases hrec
          show a + 1 ≤ cfg.security.maxLoginAttempts - 1
          omega
        · rw [lookupA_setA_ne email k _ s1 hk] at hrec
          exact hinv1 k rec hrec

theorem attemptsInv_track (cfg : Config) (email : String) (suc : Bool) (now : Nat)
    (s : LoginStore) (hinv : AttemptsInv cfg s) :
    AttemptsInv cfg (trackLoginAttempt cfg email suc now s).2 := by
  cases h : lookupA email s with
  | none =>
    rw [trackLoginAttempt_from_none cfg email suc now s h]
    exact attemptsInv_track_aux cfg email suc now _ 0 none
      (attemptsInv_setA_zero cfg email none s hinv)
      (lookupA_setA_self email ⟨0, none⟩ s)
  | some r =>
    cases r with
    | mk a lu => exact attemptsInv_track_aux cfg email suc now s a lu hinv h

theorem attemptsInv_check (cfg : Config) (email : String) (now : Nat)
    (s : LoginStore) (hinv : AttemptsInv cfg s) :
    AttemptsInv cfg (isAccountLocked email now s).2 := by
  cases h : lookupA email s with
  | none =>
    rw [isAccountLocked_no_record email now s h]
    exact hinv
  | some r =>
    cases r with
    | mk a lu =>
      cases lu with
      | none =>
        rw [isAccountLocked_no_lock email now a s h]
        exact hinv
      | some l =>
        by_cases h0 : l = 0
        · subst h0
          intro k rec hrec
          simp only [isAccountLocked, h, if_pos] at hrec
          exact hinv k rec hrec
        · by_cases hlt : now < l
          · rw [isAccountLocked_active email now a l s h (Nat.pos_of_ne_zero h0) hlt]
            exact hinv
          · rw [isAccountLocked_expired email now a l s h (Nat.pos_of_ne_zero h0)
              (Nat.not_lt.mp hlt)]
            intro k rec hrec
            by_cases hk : email = k
            · subst hk
              rw [lookupA_eraseA_self] at hrec
              cases hrec
            · rw [lookupA_eraseA_ne email k s hk] at hrec
              exact hinv k rec hrec

theorem attemptsInv_run (cfg : Config) (ops : List GuardOp) :
    ∀ s : LoginStore, AttemptsInv cfg s → AttemptsInv cfg (runGuardOps cfg ops s) := by
  induction ops with
  | nil => intro s h; exact h
  | cons op rest ih =>
    intro s h
    cases op with
    | track e suc now => exact ih _ (attemptsInv_track cfg e suc now s h)
    | check e now => exact ih _ (attemptsInv_check cfg e now s h)

/-- C10: after any sequence of `trackLoginAttempt` and `isAccountLocked`
calls starting from the empty `loginAttempts` map, every persisted record
satisfies `attempts ≤ maxLoginAttempts - 1`: the counter never persists at
or beyond the threshold, because the call that reaches it resets the
counter to 0 while setting the lock. -/
theorem loginAttempts_counter_invariant (cfg : Config) (ops : List GuardOp) :
    AttemptsInv cfg (runGuardOps cfg ops []) := by
  apply attemptsInv_run
  intro k rec hrec
  simp [lookupA] at hrec

/-- Witness for C10: one concrete failed attempt leaves the counter at 1,
which the invariant bounds by `maxLoginAttempts - 1 = 4`. -/
theorem loginAttempts_counter_invariant_witness :
    (1 : Nat) ≤ defaultConfig.security.maxLoginAttempts - 1 :=
  loginAttempts_counter_invariant defaultConfig
    [GuardOp.track "a@x.edu" false 0] "a@x.edu" ⟨1, none⟩ rfl

/-! ### Refresh-token revocation round trip (C3) -/

theorem find?_filter_none {α : Type} (l : List α) (p q : α → Bool)
    (h : ∀ x, q x = true → p x = false) :
    (l.filter p).find? q = none := by
  rw [List.find?_eq_none]
  intro x hx hq
  have hp := (List.mem_filter.mp hx).2
  rw [h x hq] at hp
  cases hp

/-- C3: a refresh token accepted by `verifyRefreshToken` whose persisted
row has been deleted by logout is rejected 401 `TOKEN_NOT_FOUND`; and a
successful refresh issues only a new access token — the response carries
no refresh token and the persisted rows are unchanged. -/
theorem refresh_revocation (cfg : Config) (db : Db) (tok : RefreshTok) (now : Nat)
    (d : RefreshPayload) (hver : verifyRefreshToken cfg tok now = some d) :
    refreshHandler cfg (logoutHandler db d.id (some tok)).2 (some tok) now =
      (ApiResponse.err 401 "TOKEN_NOT_FOUND", (logoutHandler db d.id (some tok)).2) ∧
    (∀ (resp : ApiResponse) (db' : Db),
      refreshHandler cfg db (some tok) now = (resp, db') → resp.status = 200 →
      db' = db ∧ resp.refreshToken = none ∧ resp.accessToken ≠ none) := by
  constructor
  · have hfind : ((logoutHandler db d.id (some tok)).2).refreshTokens.find?
        (fun r => decide (r.userId = d.id) &&
          (decide (r.token = tok) && decide (now < r.expiresAt))) = none := by
      apply find?_filter_none
      intro r hq
      simp only [Bool.and_eq_true, decide_eq_true_eq] at hq
      simp [hq.1, hq.2.1]
    simp [refreshHandler, hver, hfind]
  · intro resp db' heq h200
    rw [refreshHandler] at heq
    simp only [hver] at heq
    cases hfind : db.refreshTokens.find?
        (fun r => decide (r.userId = d.id ∧ r.token = tok ∧ now < r.expiresAt)) with
    | none =>
      rw [hfind] at heq
      cases heq
      simp [ApiResponse.err] at h200
    | some row =>
      rw [hfind] at heq
      cases huser : db.users.find? (fun u => u.id == d.id) with
      | none =>
        rw [huser] at heq
        cases heq
        simp [ApiResponse.err] at h200
      | some user =>
        rw [huser] at heq
        cases heq
        exact ⟨rfl, rfl, by simp⟩

/-- Witness for C3: issue a refresh token for user 1, persist it, log out
with it, then attempt to refresh: rejected `TOKEN_NOT_FOUND`. -/
theorem refresh_revocation_witness :
    refreshHandler defaultConfig
        (logoutHandler
          { users := [{ id := 1, email := "p@x.edu", name := "P", role := "professor"
                        password := "pw" }]
            refreshTokens := [{ userId := 1
                                token := generateRefreshToken defaultConfig 1 0
                                expiresAt := 604800000 }] }
          1 (some (generateRefreshToken defaultConfig 1 0))).2
        (some (generateRefreshToken defaultConfig 1 0)) 1000 =
      (ApiResponse.err 401 "TOKEN_NOT_FOUND",
       (logoutHandler
          { users := [{ id := 1, email := "p@x.edu", name := "P", role := "professor"
                        password := "pw" }]
            refreshTokens := [{ userId := 1
                                token := generateRefreshToken defaultConfig 1 0
                                expiresAt := 604800000 }] }
          1 (some (generateRefreshToken defaultConfig 1 0))).2) :=
  (refresh_revocation defaultConfig
    { users := [{ id := 1, email := "p@x.edu", name := "P", role := "professor"
                  password := "pw" }]
      refreshTokens := [{ userId := 1
                          token := generateRefreshToken defaultConfig 1 0
                          expiresAt := 604800000 }] }
    (generateRefreshToken defaultConfig 1 0) 1000 ⟨1, "refresh"⟩ rfl).1

/-! ### Login lockout scenario (C1) -/

theorem loginHandler_locked (cfg : Config) (db : Db) (email pw : String)
    (now a l : Nat) (s : LoginStore)
    (hrec : lookupA email s = some ⟨a, some l⟩) (h0 : 0 < l) (hnow : now < l) :
    loginHandler cfg db email pw now s =
      ({ ApiResponse.err 423 "ACCOUNT_LOCKED" with
           retryAfter := some (ceilDivN (l - now) 1000) }, s, db) := by
  simp [loginHandler, isAccountLocked_active email now a l s hrec h0 hnow]

theorem loginHandler_wrong (cfg : Config) (db : Db) (user : User) (email pw : String)
    (now : Nat) (s : LoginStore)
    (huser : db.users.find? (fun u => u.email == email) = some user)
    (hpw : (pw == user.password) = false)
    (hchk : isAccountLocked email now s =
      ({ locked := false, remainingSeconds := none }, s)) :
    loginHandler cfg db email pw now s =
      ({ ApiResponse.err 401 "INVALID_CREDENTIALS" with
           attemptsRemaining := (trackLoginAttempt cfg email false now s).1.attemptsRemaining },
       (trackLoginAttempt cfg email false now s).2, db) := by
  simp [loginHandler, hchk, huser, hpw]

theorem loginHandler_wrong_first (cfg : Config) (db : Db) (user : User)
    (email pw : String) (now : Nat) (s0 : LoginStore)
    (hnone : lookupA email s0 = none)
    (huser : db.users.find? (fun u => u.email == email) = some user)
    (hpw : (pw == user.password) = false)
    (h1 : 1 < cfg.security.maxLoginAttempts) :
    loginHandler cfg db email pw now s0 =
      ({ ApiResponse.err 401 "INVALID_CREDENTIALS" with
           attemptsRemaining := some (cfg.security.maxLoginAttempts - 1) },
       setA email ⟨1, none⟩ (setA email ⟨0, none⟩ s0), db) := by
  rw [loginHandler_wrong cfg db user email pw now s0 huser hpw
    (isAccountLocked_no_record email now s0 hnone)]
  rw [trackLoginAttempt_from_none cfg email false now s0 hnone,
    trackLoginAttempt_fail_incr cfg email now 0 (setA email ⟨0, none⟩ s0)
      (lookupA_setA_self email ⟨0, none⟩ s0) (by omega)]

theorem loginHandler_wrong_incr (cfg : Config) (db : Db) (user : User)
    (email pw : String) (now a : Nat) (s : LoginStore)
    (hrec : lookupA email s = some ⟨a, none⟩)
    (huser : db.users.find? (fun u => u.email == email) = some user)
    (hpw : (pw == user.password) = false)
    (hlt : a + 1 < cfg.security.maxLoginAttempts) :
    loginHandler cfg db email pw now s =
      ({ ApiResponse.err 401 "INVALID_CREDENTIALS" with
           attemptsRemaining := some (cfg.security.maxLoginAttempts - (a + 1)) },
       setA email ⟨a + 1, none⟩ s, db) := by
  rw [loginHandler_wrong cfg db user email pw now s huser hpw
    (isAccountLocked_no_lock email now a s hrec)]
  rw [trackLoginAttempt_fail_incr cfg email now a s hrec hlt]

theorem loginHandler_wrong_trip (cfg : Config) (db : Db) (user : User)
    (email pw : String) (now a : Nat) (s : LoginStore)
    (hrec : lookupA email s = some ⟨a, none⟩)
    (huser : db.users.find? (fun u => u.email == email) = some user)
    (hpw : (pw == user.password) = false)
    (hge : cfg.security.maxLoginAttempts ≤ a + 1) :
    loginHandler cfg db email pw now s =
      (ApiResponse.err 401 "INVALID_CREDENTIALS",
       setA email ⟨0, some (now + cfg.security.lockoutDuration)⟩ s, db) := by
  rw [loginHandler_wrong cfg db user email pw now s huser hpw
    (isAccountLocked_no_lock email now a s hrec)]
  rw [trackLoginAttempt_fail_trip cfg email now a s hrec hge]
  rfl

/-- C1 counterexample: with the default threshold 5 and no prior record,
the 5th wrong-password login submission for `prof@x.edu` is answered
401 `INVALID_CREDENTIALS` (with no `attemptsRemaining` field), not
423 `ACCOUNT_LOCKED`: the wrong-password branch of the login route ignores
the `locked` flag of the tracking result, so the lock set by the 5th
failure surfaces only from the 6th submission on. -/
theorem login_lockout_cex :
    ((runLogins defaultConfig "prof@x.edu" "wrong" [0, 1, 2, 3, 4] ([], scenarioDb)).1)[4]? =
      some (ApiResponse.err 401 "INVALID_CREDENTIALS") ∧
    (ApiResponse.err 401 "INVALID_CREDENTIALS").status = 401 ∧
    (ApiResponse.err 401 "INVALID_CREDENTIALS").status ≠ 423 ∧
    (ApiResponse.err 401 "INVALID_CREDENTIALS").code ≠ some "ACCOUNT_LOCKED" := by
  exact ⟨rfl, rfl, by decide, by decide⟩

/-- C1 (amended): with threshold `maxLoginAttempts = 5` and no prior
record, the first four wrong-password submissions return
401 `INVALID_CREDENTIALS` with decreasing `attemptsRemaining`; the 5th
returns 401 `INVALID_CREDENTIALS` with no `attemptsRemaining` while, as a
side effect, setting `lockUntil = t5 + lockoutDuration` and resetting the
counter to 0; a 6th submission before the lock expires returns
423 `ACCOUNT_LOCKED` with
`retryAfter = ceil((lockUntil - now)/1000) ≈ lockoutDuration/1000` and
leaves the stored record unchanged. -/
theorem login_lockout_behavior (cfg : Config) (db : Db) (user : User)
    (email pw : String) (t1 t2 t3 t4 t5 t6 : Nat) (s0 : LoginStore)
    (huser : db.users.find? (fun u => u.email == email) = some user)
    (hpw : (pw == user.password) = false)
    (hnone : lookupA email s0 = none)
    (hmax : cfg.security.maxLoginAttempts = 5)
    (hdur : 0 < cfg.security.lockoutDuration)
    (ht6 : t6 < t5 + cfg.security.lockoutDuration) :
    (runLogins cfg email pw [t1, t2, t3, t4, t5] (s0, db)).1 =
      [{ ApiResponse.err 401 "INVALID_CREDENTIALS" with attemptsRemaining := some 4 },
       { ApiResponse.err 401 "INVALID_CREDENTIALS" with attemptsRemaining := some 3 },
       { ApiResponse.err 401 "INVALID_CREDENTIALS" with attemptsRemaining := some 2 },
       { ApiResponse.err 401 "INVALID_CREDENTIALS" with attemptsRemaining := some 1 },
       ApiResponse.err 401 "INVALID_CREDENTIALS"] ∧
    lookupA email (runLogins cfg email pw [t1, t2, t3, t4, t5] (s0, db)).2.1 =
      some ⟨0, some (t5 + cfg.security.lockoutDuration)⟩ ∧
    (runLogins cfg email pw [t1, t2, t3, t4, t5] (s0, db)).2.2 = db ∧
    (loginHandler cfg db email pw t6
        (runLogins cfg email pw [t1, t2, t3, t4, t5] (s0, db)).2.1).1 =
      { ApiResponse.err 423 "ACCOUNT_LOCKED" with
          retryAfter := some (ceilDivN (t5 + cfg.security.lockoutDuration - t6) 1000) } ∧
    (loginHandler cfg db email pw t6
        (runLogins cfg email pw [t1, t2, t3, t4, t5] (s0, db)).2.1).2.1 =
      (runLogins cfg email pw [t1, t2, t3, t4, t5] (s0, db)).2.1 := by
  have h1 := loginHandler_wrong_first cfg db user email pw t1 s0 hnone huser hpw
    (by omega)
  have hl1 : lookupA email
      (setA email (⟨1, none⟩ : AttemptRecord) (setA email ⟨0, none⟩ s0)) =
      some ⟨1, none⟩ := lookupA_setA_self email (⟨1, none⟩ : AttemptRecord) _
  have h2 := loginHandler_wrong_incr cfg db user email pw t2 1 _ hl1 huser hpw
    (by omega)
  have hl2 : lookupA email (setA email (⟨2, none⟩ : AttemptRecord)
      (setA email ⟨1, none⟩ (setA email ⟨0, none⟩ s0))) =
      some ⟨2, none⟩ := lookupA_setA_self email (⟨2, none⟩ : AttemptRecord) _
  have h3 := loginHandler_wrong_incr cfg db user email pw t3 2 _ hl2 huser hpw
    (by omega)
  have hl3 : lookupA email (setA email (⟨3, none⟩ : AttemptRecord)
      (setA email ⟨2, none⟩ (setA email ⟨1, none⟩ (setA email ⟨0, none⟩ s0)))) =
      some ⟨3, none⟩ := lookupA_setA_self email (⟨3, none⟩ : AttemptRecord) _
  have h4 := loginHandler_wrong_incr cfg db user email pw t4 3 _ hl3 huser hpw
    (by omega)
  have hl4 : lookupA email (setA email (⟨4, none⟩ : AttemptRecord)
      (setA email ⟨3, none⟩ (setA email ⟨2, none⟩
        (setA email ⟨1, none⟩ (setA email ⟨0, none⟩ s0))))) =
      some ⟨4, none⟩ := lookupA_setA_self email (⟨4, none⟩ : AttemptRecord) _
  have h5 := loginHandler_wrong_trip cfg db user email pw t5 4 _ hl4 huser hpw
    (by omega)
  have hrun : runLogins cfg email pw [t1, t2, t3, t4, t5] (s0, db) =
      ([{ ApiResponse.err 401 "INVALID_CREDENTIALS" with
            attemptsRemaining := some (cfg.security.maxLoginAttempts - 1) },
        { ApiResponse.err 401 "INVALID_CREDENTIALS" with
            attemptsRemaining := some (cfg.security.maxLoginAttempts - 2) },
        { ApiResponse.err 401 "INVALID_CREDENTIALS" with
            attemptsRemaining := some (cfg.security.maxLoginAttempts - 3) },
        { ApiResponse.err 401 "INVALID_CREDENTIALS" with
            attemptsRemaining := some (cfg.security.maxLoginAttempts - 4) },
        ApiResponse.err 401 "INVALID_CREDENTIALS"],
       (setA email ⟨0, some (t5 + cfg.security.lockoutDuration)⟩
         (setA email ⟨4, none⟩ (setA email ⟨3, none⟩ (setA email ⟨2, none⟩
           (setA email ⟨1, none⟩ (setA email ⟨0, none⟩ s0))))), db)) := by
    simp [runLogins, h1, h2, h3, h4, h5]
  have hl5 : lookupA email (setA email
      (⟨0, some (t5 + cfg.security.lockoutDuration)⟩ : AttemptRecord)
      (setA email ⟨4, none⟩ (setA email ⟨3, none⟩ (setA email ⟨2, none⟩
        (setA email ⟨1, none⟩ (setA email ⟨0, none⟩ s0)))))) =
      some ⟨0, some (t5 + cfg.security.lockoutDuration)⟩ :=
    lookupA_setA_self email _ _
  have h6 := loginHandler_locked cfg db email pw t6 0
    (t5 + cfg.security.lockoutDuration) _ hl5 (by omega) ht6
  rw [hrun]
  refine ⟨?_, ?_, rfl, ?_, ?_⟩
  · rw [hmax]
  · exact hl5
  · rw [h6]
  · rw [h6]

/-- Witness for the amended C1 in the concrete scenario: 5 wrong-password
logins at times 0..4, then a 6th at time 5 answered 423 `ACCOUNT_LOCKED`. -/
theorem login_lockout_behavior_witness :
    (loginHandler defaultConfig scenarioDb "prof@x.edu" "wrong" 5
        (runLogins defaultConfig "prof@x.edu" "wrong" [0, 1, 2, 3, 4]
          ([], scenarioDb)).2.1).1 =
      { ApiResponse.err 423 "ACCOUNT_LOCKED" with
          retryAfter := some
            (ceilDivN (4 + defaultConfig.security.lockoutDuration - 5) 1000) } :=
  (login_lockout_behavior defaultConfig scenarioDb
    { id := 1, email := "prof@x.edu", name := "Prof", role := "professor"
      password := "correct-pass" }
    "prof@x.edu" "wrong" 0 1 2 3 4 5 [] rfl rfl rfl rfl (by decide)
    (by decide)).2.2.2.1

end EduPay
